import Mathlib

/-!
Verification of the turn/stage orchestration engine of the `bkamp-ai-debate`
application: a shallow embedding of the debate engine (stage/round scheduler,
consensus detector, context window builder), the zustand session store, and the
turn execution / retry logic of the debate view, together with theorems that
settle the specified properties.
-/

namespace AIDebate

/-- `AIModel` from `lib/types.ts`: `'gpt' | 'gemini' | 'claude'`. -/
inductive AIModel
  | gpt
  | gemini
  | claude
deriving DecidableEq, Repr

/-- `DebateStage` from `lib/types.ts`. -/
inductive DebateStage
  | topicInput
  | modelSelect
  | position
  | crossExam
  | commonGround
  | consensus
  | result
deriving DecidableEq, Repr

/-- `AIStatus` from `lib/types.ts`: `'idle' | 'streaming' | 'complete' | 'error' | 'abstained'`. -/
inductive AIStatus
  | idle
  | streaming
  | complete
  | error
  | abstained
deriving DecidableEq, Repr

/-- `Message` from `lib/types.ts` (the optional `tokenCount` is never set by the engine). -/
structure Message where
  id : String
  model : AIModel
  content : String
  stage : DebateStage
  round : Nat
  timestamp : Nat
deriving DecidableEq, Repr

/-- `AIState` from `lib/types.ts`. -/
structure AIState where
  model : AIModel
  status : AIStatus
  apiKey : String
  tokenUsage : Nat
deriving DecidableEq, Repr

/-- `DebateConfig` from the debate engine module. -/
structure DebateConfig where
  selectedModels : List AIModel
  topic : String
  messages : List Message
  stage : DebateStage
  round : Nat

/-- The lowercase JS string value of an `AIModel`. -/
def modelName : AIModel → String
  | AIModel.gpt => "gpt"
  | AIModel.gemini => "gemini"
  | AIModel.claude => "claude"

/-- JS `haystack.includes(needle)` at the character-list level:
`charListStarts s p` is "`p` occurs at the head of `s`". -/
def charListStarts : List Char → List Char → Bool
  | _, [] => true
  | [], _ :: _ => false
  | c :: cs, p :: ps => c == p && charListStarts cs ps

/-- `charListHasSub s p` is "`p` occurs somewhere inside `s`". -/
def charListHasSub (s pat : List Char) : Bool :=
  match s with
  | [] => pat.isEmpty
  | _ :: rest => charListStarts s pat || charListHasSub rest pat

/-- JS `String.prototype.includes`. -/
def strIncludes (s pat : String) : Bool :=
  charListHasSub s.toList pat.toList

/-- JS `arr.slice(-n)`: the last `n` elements (all of them when fewer). -/
def sliceLast {α : Type} (n : Nat) (l : List α) : List α :=
  l.drop (l.length - n)

/-- Per-stage configuration (`STAGE_CONFIG` in the debate engine). -/
structure StageConfig where
  maxRounds : Nat
  turnsPerRound : Nat
deriving DecidableEq, Repr

/-- `STAGE_CONFIG` from the debate engine. -/
def STAGE_CONFIG : DebateStage → StageConfig
  | DebateStage.topicInput => ⟨0, 0⟩
  | DebateStage.modelSelect => ⟨0, 0⟩
  | DebateStage.position => ⟨1, 3⟩
  | DebateStage.crossExam => ⟨4, 3⟩
  | DebateStage.commonGround => ⟨2, 3⟩
  | DebateStage.consensus => ⟨15, 3⟩
  | DebateStage.result => ⟨0, 0⟩

/-- Role tag of a context fragment (`'user' | 'assistant'`). -/
inductive ContextRole
  | user
  | assistant
deriving DecidableEq, Repr

/-- One entry of `contextMessages`. -/
structure ContextMessage where
  role : ContextRole
  content : String
deriving DecidableEq, Repr

/-- `TurnResult` from the debate engine. -/
structure TurnResult where
  model : AIModel
  prompt : String
  systemPrompt : String
  contextMessages : List ContextMessage
deriving DecidableEq, Repr

/-- Modelled from the spec: the system-level instruction text for an agent.
The `prompts` module (`getSystemPrompt`) is not among the provided sources;
per the spec it is a fixed instruction keyed by the agent. Its content is
irrelevant to every property proved below. -/
def getSystemPrompt (model : AIModel) : String :=
  "system instruction for " ++ modelName model

/-- Modelled from the spec: the stage-specific task prompt, built from the
topic, the bounded recent context and (for the consensus stage) the current
proposal. The `prompts` module (`getStagePrompt`) is not among the provided
sources; its content is irrelevant to every property proved below. -/
def getStagePrompt (stage : DebateStage) (topic : String) (recentMessages : List Message)
    (currentConsensus : Option String) (round : Nat) : String :=
  topic ++ "|" ++ toString (STAGE_CONFIG stage).maxRounds ++ "|" ++ toString round
    ++ "|" ++ toString recentMessages.length ++ "|" ++ currentConsensus.getD ""

/-- `findCurrentConsensus` from the debate engine: the content of the last
consensus-stage message whose first 500 characters do not contain the marker. -/
def findCurrentConsensus (messages : List Message) : Option String :=
  let consensusMessages := messages.filter fun m =>
    m.stage == DebateStage.consensus
      && !(strIncludes (String.mk (m.content.toList.take 500)) "[CONSENSUS]")
  consensusMessages.getLast?.map Message.content

/-- `buildContextMessages` from the debate engine: the last five messages, each
prefixed with the producing model's uppercased name, self turns tagged
`assistant` and peers' turns tagged `user`. -/
def buildContextMessages (messages : List Message) (currentModel : AIModel) :
    List ContextMessage :=
  (sliceLast 5 messages).map fun m =>
    { role := if m.model == currentModel then ContextRole.assistant else ContextRole.user
      content := "[" ++ (modelName m.model).toUpper ++ "]: " ++ m.content }

/-- The models that already produced a message for the current (stage, round). -/
def modelsSpokenThisRound (config : DebateConfig) : List AIModel :=
  (config.messages.filter fun m =>
    m.stage == config.stage && m.round == config.round).map Message.model

/-- `getNextTurn` from the debate engine. -/
def getNextTurn (config : DebateConfig) : Option TurnResult :=
  if config.stage == DebateStage.result || config.stage == DebateStage.topicInput
      || config.stage == DebateStage.modelSelect then
    none
  else
    match config.selectedModels.find?
        (fun m => !((modelsSpokenThisRound config).contains m)) with
    | none => none
    | some nextModel =>
      some
        { model := nextModel
          systemPrompt := getSystemPrompt nextModel
          prompt := getStagePrompt config.stage config.topic (sliceLast 5 config.messages)
            (findCurrentConsensus config.messages) config.round
          contextMessages := buildContextMessages config.messages nextModel }

/-- `shouldAdvanceRound` from the debate engine: the count of messages for the
current (stage, round) has reached the number of selected models. -/
def shouldAdvanceRound (config : DebateConfig) : Bool :=
  let stageMessages := config.messages.filter fun m =>
    m.stage == config.stage && m.round == config.round
  config.selectedModels.length ≤ stageMessages.length

/-- The fixed stage order of the debate engine. -/
def stageOrder : List DebateStage :=
  [DebateStage.position, DebateStage.crossExam, DebateStage.commonGround,
    DebateStage.consensus, DebateStage.result]

/-- `getNextStage` from the debate engine (JS `order[order.indexOf(current) + 1] || 'result'`,
with `indexOf` evaluating to `-1` for a stage outside the order list). -/
def getNextStage (current : DebateStage) : DebateStage :=
  let i : Int := if current ∈ stageOrder then (stageOrder.indexOf current : Int) else -1
  (stageOrder.get? (i + 1).toNat).getD DebateStage.result

/-- The result record of `shouldAdvanceStage`. -/
structure StageAdvance where
  advance : Bool
  nextStage : Option DebateStage
deriving DecidableEq, Repr

/-- `shouldAdvanceStage` from the debate engine. -/
def shouldAdvanceStage (config : DebateConfig) : StageAdvance :=
  if (STAGE_CONFIG config.stage).maxRounds ≤ config.round then
    { advance := true, nextStage := some (getNextStage config.stage) }
  else
    { advance := false, nextStage := none }

/-- `MIN_CONSENSUS_ROUND` from the debate engine. -/
def MIN_CONSENSUS_ROUND : Nat := 3

/-- The consensus marker token. -/
def consensusMarker : String := "[CONSENSUS]"

/-- For one model, its last message among the consensus-stage messages
(the `modelMessages[modelMessages.length - 1]` step of `checkConsensus`). -/
def lastConsensusMessage (messages : List Message) (model : AIModel) : Option Message :=
  ((messages.filter fun m => m.stage == DebateStage.consensus).filter
    fun m => m.model == model).getLast?

/-- `checkConsensus` from the debate engine. -/
def checkConsensus (config : DebateConfig) : Bool :=
  if config.stage != DebateStage.consensus then false
  else if config.round < MIN_CONSENSUS_ROUND then false
  else
    (config.selectedModels.map fun model =>
      lastConsensusMessage config.messages model).all fun m? =>
        match m? with
        | some m => strIncludes m.content consensusMarker
        | none => false

/-! ## The session store (`store/debate-store.ts`) -/

/-- The session store state (`DebateState` in `lib/types.ts`, state part only). -/
structure DebateState where
  topic : String
  stage : DebateStage
  round : Nat
  messages : List Message
  selectedModels : List AIModel
  aiStates : AIModel → AIState
  isPaused : Bool
  isComplete : Bool
  consensusReached : Bool

/-- `createInitialAIState` from the store. -/
def createInitialAIState (model : AIModel) : AIState :=
  { model := model, status := AIStatus.idle, apiKey := "", tokenUsage := 0 }

/-- `initialState` from the store. -/
def initialState : DebateState :=
  { topic := ""
    stage := DebateStage.topicInput
    round := 0
    messages := []
    selectedModels := []
    aiStates := createInitialAIState
    isPaused := false
    isComplete := false
    consensusReached := false }

/-- `setTopic` from the store. -/
def setTopic (s : DebateState) (topic : String) : DebateState :=
  { s with topic := topic }

/-- `setStage` from the store. -/
def setStage (s : DebateState) (stage : DebateStage) : DebateState :=
  { s with stage := stage }

/-- `setRound` from the store. -/
def setRound (s : DebateState) (round : Nat) : DebateState :=
  { s with round := round }

/-- The argument of `addMessage` (`Omit<Message, 'id' | 'timestamp'>`). -/
structure MessageInput where
  model : AIModel
  content : String
  stage : DebateStage
  round : Nat
deriving DecidableEq, Repr

/-- The message `addMessage` builds: id `` `${model}-${Date.now()}` `` and
timestamp `Date.now()`; the ambient clock value is the explicit `now`. -/
def mkMessage (input : MessageInput) (now : Nat) : Message :=
  { id := modelName input.model ++ "-" ++ toString now
    model := input.model
    content := input.content
    stage := input.stage
    round := input.round
    timestamp := now }

/-- `addMessage` from the store. -/
def addMessage (s : DebateState) (input : MessageInput) (now : Nat) : DebateState :=
  { s with messages := s.messages ++ [mkMessage input now] }

/-- `updateStreamingMessage` from the store: looks for an existing message of
this model for the current (stage, round); appends a fresh message when none
exists, otherwise replaces that message's `content` in place. -/
def updateStreamingMessage (s : DebateState) (model : AIModel) (content : String)
    (now : Nat) : DebateState :=
  match s.messages.findIdx? (fun m =>
      m.model == model && m.stage == s.stage && m.round == s.round) with
  | none =>
    { s with messages := s.messages ++
        [{ id := modelName model ++ "-" ++ toString now
           model := model
           content := content
           stage := s.stage
           round := s.round
           timestamp := now }] }
  | some i =>
    match s.messages.get? i with
    | some old => { s with messages := s.messages.set i { old with content := content } }
    | none => s

/-- `toggleModel` from the store. -/
def toggleModel (s : DebateState) (model : AIModel) : DebateState :=
  { s with selectedModels :=
      if s.selectedModels.contains model then
        s.selectedModels.filter fun m => m != model
      else
        s.selectedModels ++ [model] }

/-- `setApiKey` from the store. -/
def setApiKey (s : DebateState) (model : AIModel) (key : String) : DebateState :=
  { s with aiStates := fun m =>
      if m == model then { s.aiStates model with apiKey := key } else s.aiStates m }

/-- `setAIStatus` from the store. -/
def setAIStatus (s : DebateState) (model : AIModel) (status : AIStatus) : DebateState :=
  { s with aiStates := fun m =>
      if m == model then { s.aiStates model with status := status } else s.aiStates m }

/-- `updateTokenUsage` from the store. -/
def updateTokenUsage (s : DebateState) (model : AIModel) (tokens : Nat) : DebateState :=
  { s with aiStates := fun m =>
      if m == model then
        { s.aiStates model with tokenUsage := (s.aiStates model).tokenUsage + tokens }
      else s.aiStates m }

/-- `togglePause` from the store. -/
def togglePause (s : DebateState) : DebateState :=
  { s with isPaused := !s.isPaused }

/-- `setComplete` from the store. -/
def setComplete (s : DebateState) (consensusReached : Bool) : DebateState :=
  { s with isComplete := true, consensusReached := consensusReached, stage := DebateStage.result }

/-- `reset` from the store. -/
def reset (_ : DebateState) : DebateState :=
  initialState

/-! ## The debate view tick (`DebateView.runTurn`) -/

/-- The single action a `runTurn` tick takes before returning. -/
inductive SchedulerAction
  | completeConsensus
  | completeNoConsensus
  | advanceStage (next : DebateStage)
  | advanceRound
  | produceTurn (turn : TurnResult)
  | noAction
deriving DecidableEq, Repr

/-- The decision part of `DebateView.runTurn` (its early-return cascade):
consensus check, then stage-advance, then round-advance, then turn production. -/
def runTurnDecision (config : DebateConfig) : SchedulerAction :=
  if checkConsensus config then
    SchedulerAction.completeConsensus
  else
    match (shouldAdvanceStage config).advance, (shouldAdvanceStage config).nextStage with
    | true, some ns =>
      if ns == DebateStage.result then SchedulerAction.completeNoConsensus
      else SchedulerAction.advanceStage ns
    | _, _ =>
      if shouldAdvanceRound config then SchedulerAction.advanceRound
      else
        match getNextTurn config with
        | some t => SchedulerAction.produceTurn t
        | none => SchedulerAction.noAction

/-- The guard at the top of `runTurn` (`if (isPaused || isComplete || isRunning) return`)
followed by the decision cascade: a tick decides at most one action. -/
def tick (isPaused isComplete isRunning : Bool) (config : DebateConfig) :
    Option SchedulerAction :=
  if isPaused || isComplete || isRunning then none
  else some (runTurnDecision config)

/-! ## The turn executor (the body of `runTurn` after a turn is selected) -/

/-- The outcome of driving one streaming generation call: either the list of
emitted content fragments, or an error with its message text. -/
inductive TurnOutcome
  | success (fragments : List String)
  | failure (message : String)

/-- The credential-error classification of `runTurn`
(`errorMessage.includes('401') || errorMessage.includes('API key') || errorMessage.includes('Incorrect')`). -/
def isCredentialError (msg : String) : Bool :=
  strIncludes msg "401" || strIncludes msg "API key" || strIncludes msg "Incorrect"

/-- The fixed retry ceiling (`currentRetry < 3` in `runTurn`). -/
def RETRY_CEILING : Nat := 3

/-- The user-facing terminal error for an invalid API key. -/
def credentialErrorText (model : AIModel) : String :=
  (modelName model).toUpper ++ " API 키가 유효하지 않습니다. 새 토론에서 다시 설정해주세요."

/-- The user-facing terminal error after exhausted retries. -/
def transientErrorText (model : AIModel) : String :=
  (modelName model).toUpper ++ " API 호출에 실패했습니다. 새 토론에서 다시 시도해주세요."

/-- The state `runTurn` mutates while executing a turn: the session store plus
the component-local per-model retry counters and the surfaced error. -/
structure ExecState where
  store : DebateState
  retryCount : AIModel → Nat
  apiError : Option (AIModel × String)

/-- The turn-execution part of `DebateView.runTurn` for the selected `model`,
given the `outcome` of the streaming call and the ambient clock `now`:
status `streaming` is set first; on success the accumulated text is committed
via `addMessage`, status becomes `complete`, usage grows by `ceil(len/4)` and
the retry counter resets; on a credential error the agent abstains at once with
a terminal error; on any other error it retries below the ceiling (increment
counter, status `idle`) and abstains with a terminal error otherwise. -/
def executeTurn (s : ExecState) (model : AIModel) (outcome : TurnOutcome)
    (now : Nat) : ExecState :=
  let s1 : ExecState := { s with store := setAIStatus s.store model AIStatus.streaming }
  match outcome with
  | TurnOutcome.success fragments =>
    let fullContent := String.join fragments
    let st1 := addMessage s1.store
      { model := model, content := fullContent
        stage := s1.store.stage, round := s1.store.round } now
    let st2 := setAIStatus st1 model AIStatus.complete
    let st3 := updateTokenUsage st2 model ((fullContent.length + 3) / 4)
    { s1 with
        store := st3
        retryCount := fun m => if m == model then 0 else s1.retryCount m }
  | TurnOutcome.failure msg =>
    if isCredentialError msg then
      { s1 with
          store := setAIStatus s1.store model AIStatus.abstained
          apiError := some (model, credentialErrorText model) }
    else if s1.retryCount model < RETRY_CEILING then
      { s1 with
          store := setAIStatus s1.store model AIStatus.idle
          retryCount := fun m => if m == model then s1.retryCount m + 1 else s1.retryCount m }
    else
      { s1 with
          store := setAIStatus s1.store model AIStatus.abstained
          apiError := some (model, transientErrorText model) }

/-! ## Spec-words predicates (for refinement comparison only) -/

/-- Modelled from the spec's words, for comparison with `checkConsensus`:
"consensus detection is true iff every *non-abstained* participating agent's
latest consensus-stage utterance carries the agreement marker" (plus the stage
and minimum-round gates). It differs from the source only in filtering the
participating agents by their abstention status. -/
def checkConsensusSpec (config : DebateConfig) (status : AIModel → AIStatus) : Bool :=
  if config.stage != DebateStage.consensus then false
  else if config.round < MIN_CONSENSUS_ROUND then false
  else
    ((config.selectedModels.filter fun m => status m != AIStatus.abstained).map
      fun model => lastConsensusMessage config.messages model).all fun m? =>
        match m? with
        | some m => strIncludes m.content consensusMarker
        | none => false

/-! ## Concrete fixtures -/

/-- A consensus-stage message of gpt carrying the agreement marker. -/
def msgGptConsensus : Message :=
  { id := "gpt-1", model := AIModel.gpt, content := "[CONSENSUS] 동의합니다"
    stage := DebateStage.consensus, round := 3, timestamp := 1 }

/-- A consensus-stage message of gemini carrying the agreement marker. -/
def msgGeminiConsensus : Message :=
  { id := "gemini-2", model := AIModel.gemini, content := "[CONSENSUS] agreed"
    stage := DebateStage.consensus, round := 3, timestamp := 2 }

/-- Consensus stage, round 3, three selected models, marker-carrying messages
from gpt and gemini only (claude silent in the consensus stage). -/
def cfgConsensusAbstained : DebateConfig :=
  { selectedModels := [AIModel.gpt, AIModel.gemini, AIModel.claude]
    topic := "topic", messages := [msgGptConsensus, msgGeminiConsensus]
    stage := DebateStage.consensus, round := 3 }

/-- Agent statuses with claude abstained and everyone else idle. -/
def stClaudeAbstained : AIModel → AIStatus := fun m =>
  if m == AIModel.claude then AIStatus.abstained else AIStatus.idle

/-- A cross-exam message of gpt for round 1. -/
def msgGptCross : Message :=
  { id := "gpt-3", model := AIModel.gpt, content := "point"
    stage := DebateStage.crossExam, round := 1, timestamp := 3 }

/-- A cross-exam message of gemini for round 1. -/
def msgGeminiCross : Message :=
  { id := "gemini-4", model := AIModel.gemini, content := "counterpoint"
    stage := DebateStage.crossExam, round := 1, timestamp := 4 }

/-- Cross-exam stage, round 1, three selected models, messages from gpt and
gemini for this (stage, round); claude (abstained) has not spoken. -/
def cfgCrossAbstained : DebateConfig :=
  { selectedModels := [AIModel.gpt, AIModel.gemini, AIModel.claude]
    topic := "topic", messages := [msgGptCross, msgGeminiCross]
    stage := DebateStage.crossExam, round := 1 }

/-! ## More fixtures -/

/-- A cross-exam round-1 message of claude. -/
def msgClaudeCross : Message :=
  { id := "claude-6", model := AIModel.claude, content := "rebuttal"
    stage := DebateStage.crossExam, round := 1, timestamp := 6 }

/-- Cross-exam stage, round 1, with all three selected models having spoken. -/
def cfgCrossFull : DebateConfig :=
  { selectedModels := [AIModel.gpt, AIModel.gemini, AIModel.claude]
    topic := "topic", messages := [msgGptCross, msgGeminiCross, msgClaudeCross]
    stage := DebateStage.crossExam, round := 1 }

/-- A consensus-stage marker-carrying message of claude. -/
def msgClaudeConsensus : Message :=
  { id := "claude-5", model := AIModel.claude, content := "[CONSENSUS] ok"
    stage := DebateStage.consensus, round := 3, timestamp := 5 }

/-- Consensus stage, round 3, all three latest consensus messages carry the marker. -/
def cfgConsensusFull : DebateConfig :=
  { selectedModels := [AIModel.gpt, AIModel.gemini, AIModel.claude]
    topic := "topic", messages := [msgGptConsensus, msgGeminiConsensus, msgClaudeConsensus]
    stage := DebateStage.consensus, round := 3 }

/-- A fresh execution state: initial store, zero retries, no surfaced error. -/
def execState0 : ExecState :=
  { store := initialState, retryCount := fun _ => 0, apiError := none }

/-- An execution state whose retry counters already sit at the ceiling. -/
def execState3 : ExecState :=
  { store := initialState, retryCount := fun _ => 3, apiError := none }

/-- A committed position-stage utterance of gpt. -/
def committedMsg : Message :=
  { id := "gpt-10", model := AIModel.gpt, content := "committed"
    stage := DebateStage.position, round := 1, timestamp := 10 }

/-- A store state whose log holds one committed utterance for the current
(stage, round) of the current model. -/
def storeWithCommitted : DebateState :=
  { topic := "topic", stage := DebateStage.position, round := 1
    messages := [committedMsg]
    selectedModels := [AIModel.gpt, AIModel.gemini]
    aiStates := createInitialAIState
    isPaused := false, isComplete := false, consensusReached := false }


/-! ## Helper lemmas -/

/-- The per-model marker check of `checkConsensus`, as an existential. -/
theorem matchMarker_eq_true (m? : Option Message) :
    (match m? with
      | some m => strIncludes m.content consensusMarker
      | none => false) = true ↔
    ∃ m, m? = some m ∧ strIncludes m.content consensusMarker = true := by
  cases m? <;> simp

/-- `List.find?` returns the first element satisfying the predicate: the list
splits at the result, and everything before it fails the predicate. -/
theorem find?_first_split {α : Type} (p : α → Bool) (l : List α) (a : α)
    (h : l.find? p = some a) :
    ∃ l1 l2, l = l1 ++ a :: l2 ∧ (∀ x ∈ l1, p x = false) ∧ p a = true := by
  induction l with
  | nil => cases h
  | cons b t ih =>
    cases hb : p b with
    | true =>
      rw [List.find?_cons_of_pos _ hb] at h
      cases h
      exact ⟨[], t, rfl, ⟨fun x hx => absurd hx (List.not_mem_nil x), hb⟩⟩
    | false =>
      rw [List.find?_cons_of_neg _ (by simp [hb])] at h
      obtain ⟨l1, l2, heq, h1, h2⟩ := ih h
      refine ⟨b :: l1, l2, by rw [heq]; rfl, ⟨?_, h2⟩⟩
      intro x hx
      rcases List.mem_cons.mp hx with hx | hx
      · rw [hx]; exact hb
      · exact h1 x hx

/-- `shouldAdvanceStage` returns one of exactly two shapes: an advance to the
next stage, or no advance with no next stage. -/
theorem shouldAdvanceStage_shape (config : DebateConfig) :
    shouldAdvanceStage config =
        { advance := true, nextStage := some (getNextStage config.stage) } ∨
    shouldAdvanceStage config = { advance := false, nextStage := none } := by
  unfold shouldAdvanceStage
  split
  · exact Or.inl rfl
  · exact Or.inr rfl


/-! ## Claim theorems -/

/-- C1 (counterexample): the consensus predicate does NOT exclude abstained
agents. With claude abstained and silent in the consensus stage while gpt's and
gemini's latest consensus-stage utterances carry the marker at round 3, the
claim's predicate (quantified over non-abstained agents) is true, yet
`checkConsensus` returns false: the source quantifies over all selected models. -/
theorem checkConsensus_requires_abstained_agents :
    checkConsensusSpec cfgConsensusAbstained stClaudeAbstained = true ∧
    checkConsensus cfgConsensusAbstained = false := ⟨rfl, rfl⟩

/-- C1 (amended): `checkConsensus` returns true iff the stage is `consensus`,
the round is at least `MIN_CONSENSUS_ROUND` (3), and EVERY selected agent —
abstained or not — has at least one consensus-stage utterance whose most recent
instance (regardless of round within the stage) contains the agreement marker;
it is false below round 3, outside the consensus stage, and whenever any
selected agent has not yet spoken in the consensus stage. -/
theorem checkConsensus_iff (config : DebateConfig) :
    checkConsensus config = true ↔
      config.stage = DebateStage.consensus ∧
      MIN_CONSENSUS_ROUND ≤ config.round ∧
      ∀ model ∈ config.selectedModels,
        ∃ m, lastConsensusMessage config.messages model = some m ∧
          strIncludes m.content consensusMarker = true := by
  unfold checkConsensus
  by_cases hs : config.stage = DebateStage.consensus
  · by_cases hr : config.round < MIN_CONSENSUS_ROUND
    · simp only [hs, bne_self_eq_false, Bool.false_eq_true, if_false, if_pos hr]
      constructor
      · intro h; cases h
      · rintro ⟨-, h2, -⟩
        exact absurd h2 (Nat.not_le.mpr hr)
    · simp only [hs, bne_self_eq_false, Bool.false_eq_true, if_false, if_neg hr,
        List.all_eq_true, List.mem_map]
      constructor
      · intro h
        refine ⟨by trivial, Nat.not_lt.mp hr, fun model hm => ?_⟩
        have hx := h _ ⟨model, hm, rfl⟩
        exact (matchMarker_eq_true _).mp hx
      · rintro ⟨-, -, h⟩ m? ⟨model, hm, rfl⟩
        obtain ⟨m, hlast, hmark⟩ := h model hm
        exact (matchMarker_eq_true _).mpr ⟨m, hlast, hmark⟩
  · have hbne : (config.stage != DebateStage.consensus) = true := by
      simp [bne_iff_ne, hs]
    rw [hbne, if_pos rfl]
    constructor
    · intro h; cases h
    · rintro ⟨h1, -, -⟩; exact absurd h1 hs

/-- C2 (counterexample): the round-advance check does NOT exclude abstained
agents. With claude abstained and exactly as many utterances for the current
(stage, round) as there are non-abstained agents (2 of 3), `shouldAdvanceRound`
still returns false: it compares against the full selected-model count. -/
theorem shouldAdvanceRound_ignores_abstention :
    (cfgCrossAbstained.messages.filter fun m =>
      m.stage == cfgCrossAbstained.stage && m.round == cfgCrossAbstained.round).length
      = (cfgCrossAbstained.selectedModels.filter fun m =>
          stClaudeAbstained m != AIStatus.abstained).length ∧
    shouldAdvanceRound cfgCrossAbstained = false := ⟨rfl, rfl⟩

/-- C2 (amended): the round advances exactly when the number of utterances for
the current (stage, round) pair has reached the number of ALL selected agents,
abstained agents included; and the controller advances the round only when this
check passes. -/
theorem shouldAdvanceRound_iff (config : DebateConfig) :
    (shouldAdvanceRound config = true ↔
      config.selectedModels.length ≤ (config.messages.filter fun m =>
        m.stage == config.stage && m.round == config.round).length) ∧
    (runTurnDecision config = SchedulerAction.advanceRound →
      shouldAdvanceRound config = true) := by
  constructor
  · simp [shouldAdvanceRound]
  · intro h
    unfold runTurnDecision at h
    split at h
    · cases h
    · split at h
      · split at h <;> cases h
      · split at h
        · assumption
        · split at h <;> cases h

/-- C2 (witness): with all three selected models having spoken in the current
round, the controller's round-advance decision implies the check holds. -/
theorem shouldAdvanceRound_iff_witness :
    shouldAdvanceRound cfgCrossFull = true :=
  (shouldAdvanceRound_iff cfgCrossFull).2 rfl

/-- C3 (counterexample): the next-turn selection DOES select an abstained
agent again. With claude abstained and yet to speak in the current
(stage, round), `getNextTurn` selects claude: neither `getNextTurn` nor the
turn loop consults agent status when selecting. -/
theorem getNextTurn_selects_abstained :
    stClaudeAbstained AIModel.claude = AIStatus.abstained ∧
    (getNextTurn cfgCrossAbstained).map TurnResult.model = some AIModel.claude := ⟨rfl, rfl⟩

/-- C3 (amended): next-turn selection is purely positional and ignores agent
status: the selected model is the first model in the fixed participant order
that has not yet produced an utterance for the current (stage, round); every
earlier model has already spoken this round. -/
theorem getNextTurn_first_unspoken (config : DebateConfig) (m : AIModel)
    (h : (getNextTurn config).map TurnResult.model = some m) :
    m ∈ config.selectedModels ∧ m ∉ modelsSpokenThisRound config ∧
    ∃ l1 l2, config.selectedModels = l1 ++ m :: l2 ∧
      ∀ x ∈ l1, x ∈ modelsSpokenThisRound config := by
  unfold getNextTurn at h
  split at h
  · cases h
  · cases hfind : config.selectedModels.find?
        (fun x => !((modelsSpokenThisRound config).contains x)) with
    | none => rw [hfind] at h; cases h
    | some nm =>
      rw [hfind] at h
      simp only [Option.map_some] at h
      cases h
      obtain ⟨l1, l2, heq, hl1, hp⟩ := find?_first_split _ _ _ hfind
      refine ⟨by rw [heq]; exact List.mem_append_right _ (List.mem_cons_self _ _), ?_,
        l1, l2, heq, ?_⟩
      · intro hmem
        simp at hp
        exact hp hmem
      · intro x hx
        have hc := hl1 x hx
        simp at hc
        exact hc

/-- C3 (witness): at the concrete abstained-claude configuration, the selected
model claude is indeed the first unspoken model in participant order. -/
theorem getNextTurn_first_unspoken_witness :
    AIModel.claude ∈ cfgCrossAbstained.selectedModels ∧
    AIModel.claude ∉ modelsSpokenThisRound cfgCrossAbstained ∧
    ∃ l1 l2, cfgCrossAbstained.selectedModels = l1 ++ AIModel.claude :: l2 ∧
      ∀ x ∈ l1, x ∈ modelsSpokenThisRound cfgCrossAbstained :=
  getNextTurn_first_unspoken cfgCrossAbstained AIModel.claude rfl

/-- C4: the tick decision is a single ordered cascade — consensus first, then
stage-advance, then round-advance, then turn production — so exactly one action
results, a turn is produced only when no higher-priority check fires, and a
paused/complete/in-flight tick decides nothing. -/
theorem runTurn_priority (config : DebateConfig) :
    (checkConsensus config = true →
      runTurnDecision config = SchedulerAction.completeConsensus) ∧
    (∀ ns, checkConsensus config = false →
      (shouldAdvanceStage config).advance = true →
      (shouldAdvanceStage config).nextStage = some ns →
      runTurnDecision config =
        (if ns == DebateStage.result then SchedulerAction.completeNoConsensus
         else SchedulerAction.advanceStage ns)) ∧
    (checkConsensus config = false → (shouldAdvanceStage config).advance = false →
      shouldAdvanceRound config = true →
      runTurnDecision config = SchedulerAction.advanceRound) ∧
    (∀ t, runTurnDecision config = SchedulerAction.produceTurn t →
      checkConsensus config = false ∧ (shouldAdvanceStage config).advance = false ∧
      shouldAdvanceRound config = false ∧ getNextTurn config = some t) ∧
    (tick false false false config = some (runTurnDecision config)) ∧
    (∀ p c r : Bool, (p || c || r) = true → tick p c r config = none) := by
  refine ⟨?_, ?_, ?_, ?_, rfl, ?_⟩
  · intro hc
    simp [runTurnDecision, hc]
  · intro ns hc hadv hns
    simp [runTurnDecision, hc, hadv, hns]
  · intro hc hadv hround
    rcases shouldAdvanceStage_shape config with hsa | hsa
    · rw [hsa] at hadv; cases hadv
    · simp [runTurnDecision, hc, hsa, hround]
  · intro t h
    unfold runTurnDecision at h
    split at h
    · cases h
    · rename_i hc
      have hc2 : checkConsensus config = false := by
        cases hcc : checkConsensus config
        · rfl
        · exact absurd hcc hc
      refine ⟨hc2, ?_⟩
      rcases shouldAdvanceStage_shape config with hsa | hsa
      · rw [hsa] at h
        simp only [] at h
        split at h <;> cases h
      · rw [hsa] at h
        simp only [] at h
        refine ⟨by rw [hsa], ?_⟩
        split at h
        · cases h
        · rename_i hround
          have hround2 : shouldAdvanceRound config = false := by
            cases hrb : shouldAdvanceRound config
            · rfl
            · exact absurd hrb hround
          refine ⟨hround2, ?_⟩
          cases hturn : getNextTurn config with
          | none => rw [hturn] at h; cases h
          | some tt =>
            rw [hturn] at h
            cases h
            rfl
  · intro p c r hpr
    simp [tick, hpr]

/-- C4 (witness): at a configuration where consensus holds, the tick decision
is exactly "complete with consensus". -/
theorem runTurn_priority_witness :
    runTurnDecision cfgConsensusFull = SchedulerAction.completeConsensus :=
  (runTurn_priority cfgConsensusFull).1 rfl

/-- C5: on a transient (non-credential) failure, a retry counter below the
ceiling 3 is incremented by one with status reset to `idle` and no utterance
committed; at or above the ceiling the agent becomes `abstained`, a terminal
error is surfaced, and again no utterance is committed. -/
theorem executeTurn_transient (s : ExecState) (model : AIModel) (msg : String) (now : Nat)
    (hcred : isCredentialError msg = false) :
    (s.retryCount model < RETRY_CEILING →
      (executeTurn s model (TurnOutcome.failure msg) now).retryCount model
          = s.retryCount model + 1 ∧
      ((executeTurn s model (TurnOutcome.failure msg) now).store.aiStates model).status
          = AIStatus.idle ∧
      (executeTurn s model (TurnOutcome.failure msg) now).store.messages
          = s.store.messages) ∧
    (RETRY_CEILING ≤ s.retryCount model →
      ((executeTurn s model (TurnOutcome.failure msg) now).store.aiStates model).status
          = AIStatus.abstained ∧
      (executeTurn s model (TurnOutcome.failure msg) now).apiError
          = some (model, transientErrorText model) ∧
      (executeTurn s model (TurnOutcome.failure msg) now).retryCount model
          = s.retryCount model ∧
      (executeTurn s model (TurnOutcome.failure msg) now).store.messages
          = s.store.messages) := by
  constructor
  · intro hlt
    simp [executeTurn, setAIStatus, hcred, hlt]
  · intro hge
    simp [executeTurn, setAIStatus, hcred, Nat.not_lt.mpr hge]

/-- C5 (witness): a transient failure at retry count 0 increments to 1 and
idles the agent; at retry count 3 it abstains with a terminal error. -/
theorem executeTurn_transient_witness :
    ((executeTurn execState0 AIModel.gpt (TurnOutcome.failure "boom") 7).retryCount AIModel.gpt
        = execState0.retryCount AIModel.gpt + 1 ∧
      ((executeTurn execState0 AIModel.gpt (TurnOutcome.failure "boom") 7).store.aiStates
          AIModel.gpt).status = AIStatus.idle ∧
      (executeTurn execState0 AIModel.gpt (TurnOutcome.failure "boom") 7).store.messages
        = execState0.store.messages) ∧
    (((executeTurn execState3 AIModel.gpt (TurnOutcome.failure "boom") 7).store.aiStates
          AIModel.gpt).status = AIStatus.abstained ∧
      (executeTurn execState3 AIModel.gpt (TurnOutcome.failure "boom") 7).apiError
        = some (AIModel.gpt, transientErrorText AIModel.gpt) ∧
      (executeTurn execState3 AIModel.gpt (TurnOutcome.failure "boom") 7).retryCount AIModel.gpt
        = execState3.retryCount AIModel.gpt ∧
      (executeTurn execState3 AIModel.gpt (TurnOutcome.failure "boom") 7).store.messages
        = execState3.store.messages) :=
  ⟨(executeTurn_transient execState0 AIModel.gpt "boom" 7 (by decide)).1 (by decide),
   (executeTurn_transient execState3 AIModel.gpt "boom" 7 (by decide)).2 (by decide)⟩

/-- C6: on an authentication/credential failure the agent immediately becomes
`abstained` with a terminal user-facing error; no retry counter changes (for
any agent), and no utterance is committed. -/
theorem executeTurn_credential (s : ExecState) (model : AIModel) (msg : String) (now : Nat)
    (hcred : isCredentialError msg = true) :
    ((executeTurn s model (TurnOutcome.failure msg) now).store.aiStates model).status
        = AIStatus.abstained ∧
    (∀ m, (executeTurn s model (TurnOutcome.failure msg) now).retryCount m
        = s.retryCount m) ∧
    (executeTurn s model (TurnOutcome.failure msg) now).store.messages
        = s.store.messages ∧
    (executeTurn s model (TurnOutcome.failure msg) now).apiError
        = some (model, credentialErrorText model) := by
  simp [executeTurn, setAIStatus, hcred]

/-- C6 (witness): claude failing with a 401 on its first attempt abstains
immediately, its retry counter stays 0, and the log is unchanged. -/
theorem executeTurn_credential_witness :
    ((executeTurn execState0 AIModel.claude (TurnOutcome.failure "401 Unauthorized") 7).store.aiStates
        AIModel.claude).status = AIStatus.abstained ∧
    (∀ m, (executeTurn execState0 AIModel.claude (TurnOutcome.failure "401 Unauthorized") 7).retryCount m
        = execState0.retryCount m) ∧
    (executeTurn execState0 AIModel.claude (TurnOutcome.failure "401 Unauthorized") 7).store.messages
        = execState0.store.messages ∧
    (executeTurn execState0 AIModel.claude (TurnOutcome.failure "401 Unauthorized") 7).apiError
        = some (AIModel.claude, credentialErrorText AIModel.claude) :=
  executeTurn_credential execState0 AIModel.claude "401 Unauthorized" 7 (by decide)

/-- C7 (counterexample): the store is NOT append-only across all of its
operations: `updateStreamingMessage` rewrites the `content` of an
already-committed utterance in place (same id and timestamp) when a message of
that model exists for the current (stage, round). -/
theorem updateStreamingMessage_edits_committed :
    (updateStreamingMessage storeWithCommitted AIModel.gpt "edited" 11).messages
      = [{ committedMsg with content := "edited" }] ∧
    committedMsg.content = "committed" ∧
    (updateStreamingMessage storeWithCommitted AIModel.gpt "edited" 11).messages
      ≠ storeWithCommitted.messages := by
  refine ⟨rfl, rfl, ?_⟩
  decide

/-- C7 (amended): every store operation except `updateStreamingMessage` (and
the session-teardown `reset`) leaves every committed utterance unchanged:
`addMessage` strictly appends and all other mutations do not touch the log. -/
theorem store_append_only (s : DebateState) (t : String) (stg : DebateStage) (r : Nat)
    (input : MessageInput) (now : Nat) (model : AIModel) (key : String)
    (status : AIStatus) (tokens : Nat) (b : Bool) :
    (setTopic s t).messages = s.messages ∧
    (setStage s stg).messages = s.messages ∧
    (setRound s r).messages = s.messages ∧
    (addMessage s input now).messages = s.messages ++ [mkMessage input now] ∧
    (toggleModel s model).messages = s.messages ∧
    (setApiKey s model key).messages = s.messages ∧
    (setAIStatus s model status).messages = s.messages ∧
    (updateTokenUsage s model tokens).messages = s.messages ∧
    (togglePause s).messages = s.messages ∧
    (setComplete s b).messages = s.messages :=
  ⟨rfl, rfl, rfl, rfl, rfl, rfl, rfl, rfl, rfl, rfl⟩

/-- C8: turn execution leaves the session's topic, stage, round, participant
list, pause/completion/consensus flags, the selected agent's API key, and every
other agent's state and retry counter unchanged; the log is unchanged on
failure and grows by exactly the committed utterance on success. -/
theorem executeTurn_frame (s : ExecState) (model : AIModel) (outcome : TurnOutcome)
    (now : Nat) :
    (executeTurn s model outcome now).store.topic = s.store.topic ∧
    (executeTurn s model outcome now).store.stage = s.store.stage ∧
    (executeTurn s model outcome now).store.round = s.store.round ∧
    (executeTurn s model outcome now).store.selectedModels = s.store.selectedModels ∧
    (executeTurn s model outcome now).store.isPaused = s.store.isPaused ∧
    (executeTurn s model outcome now).store.isComplete = s.store.isComplete ∧
    (executeTurn s model outcome now).store.consensusReached = s.store.consensusReached ∧
    ((executeTurn s model outcome now).store.aiStates model).apiKey
        = (s.store.aiStates model).apiKey ∧
    (∀ m, m ≠ model →
      (executeTurn s model outcome now).store.aiStates m = s.store.aiStates m ∧
      (executeTurn s model outcome now).retryCount m = s.retryCount m) ∧
    (∀ msg, outcome = TurnOutcome.failure msg →
      (executeTurn s model outcome now).store.messages = s.store.messages) ∧
    (∀ frags, outcome = TurnOutcome.success frags →
      (executeTurn s model outcome now).store.messages = s.store.messages ++
        [mkMessage { model := model, content := String.join frags
                     stage := s.store.stage, round := s.store.round } now]) := by
  cases outcome with
  | success frags =>
    refine ⟨rfl, rfl, rfl, rfl, rfl, rfl, rfl, ?_, ?_, ?_, ?_⟩
    · simp [executeTurn, addMessage, setAIStatus, updateTokenUsage]
    · intro m hm
      exact ⟨by simp [executeTurn, addMessage, setAIStatus, updateTokenUsage, hm],
        by simp [executeTurn, hm]⟩
    · intro msg hmsg
      cases hmsg
    · intro f hf
      cases hf
      simp [executeTurn, addMessage, setAIStatus, updateTokenUsage]
  | failure msg =>
    cases hc : isCredentialError msg with
    | true =>
      refine ⟨?_, ?_, ?_, ?_, ?_, ?_, ?_, ?_, ?_, ?_, ?_⟩
      · simp [executeTurn, setAIStatus, hc]
      · simp [executeTurn, setAIStatus, hc]
      · simp [executeTurn, setAIStatus, hc]
      · simp [executeTurn, setAIStatus, hc]
      · simp [executeTurn, setAIStatus, hc]
      · simp [executeTurn, setAIStatus, hc]
      · simp [executeTurn, setAIStatus, hc]
      · simp [executeTurn, setAIStatus, hc]
      · intro m hm
        exact ⟨by simp [executeTurn, setAIStatus, hc, hm], by simp [executeTurn, hc, hm]⟩
      · intro msg2 h2
        simp [executeTurn, setAIStatus, hc]
      · intro f hf
        cases hf
    | false =>
      by_cases hlt : s.retryCount model < RETRY_CEILING
      · refine ⟨?_, ?_, ?_, ?_, ?_, ?_, ?_, ?_, ?_, ?_, ?_⟩
        · simp [executeTurn, setAIStatus, hc, hlt]
        · simp [executeTurn, setAIStatus, hc, hlt]
        · simp [executeTurn, setAIStatus, hc, hlt]
        · simp [executeTurn, setAIStatus, hc, hlt]
        · simp [executeTurn, setAIStatus, hc, hlt]
        · simp [executeTurn, setAIStatus, hc, hlt]
        · simp [executeTurn, setAIStatus, hc, hlt]
        · simp [executeTurn, setAIStatus, hc, hlt]
        · intro m hm
          exact ⟨by simp [executeTurn, setAIStatus, hc, hlt, hm],
            by simp [executeTurn, hc, hlt, hm]⟩
        · intro msg2 h2
          simp [executeTurn, setAIStatus, hc, hlt]
        · intro f hf
          cases hf
      · refine ⟨?_, ?_, ?_, ?_, ?_, ?_, ?_, ?_, ?_, ?_, ?_⟩
        · simp [executeTurn, setAIStatus, hc, hlt]
        · simp [executeTurn, setAIStatus, hc, hlt]
        · simp [executeTurn, setAIStatus, hc, hlt]
        · simp [executeTurn, setAIStatus, hc, hlt]
        · simp [executeTurn, setAIStatus, hc, hlt]
        · simp [executeTurn, setAIStatus, hc, hlt]
        · simp [executeTurn, setAIStatus, hc, hlt]
        · simp [executeTurn, setAIStatus, hc, hlt]
        · intro m hm
          exact ⟨by simp [executeTurn, setAIStatus, hc, hlt, hm],
            by simp [executeTurn, hc, hlt, hm]⟩
        · intro msg2 h2
          simp [executeTurn, setAIStatus, hc, hlt]
        · intro f hf
          cases hf

/-- C8 (witness): for a successful turn of gpt from the fresh state, gemini's
agent state and retry counter are untouched and the log grows by exactly the
committed utterance. -/
theorem executeTurn_frame_witness :
    ((executeTurn execState0 AIModel.gpt (TurnOutcome.success ["hi"]) 7).store.aiStates
        AIModel.gemini = execState0.store.aiStates AIModel.gemini ∧
      (executeTurn execState0 AIModel.gpt (TurnOutcome.success ["hi"]) 7).retryCount
        AIModel.gemini = execState0.retryCount AIModel.gemini) ∧
    (executeTurn execState0 AIModel.gpt (TurnOutcome.success ["hi"]) 7).store.messages
      = execState0.store.messages ++
        [mkMessage { model := AIModel.gpt, content := String.join ["hi"]
                     stage := execState0.store.stage
                     round := execState0.store.round } 7] := by
  have h := executeTurn_frame execState0 AIModel.gpt (TurnOutcome.success ["hi"]) 7
  exact ⟨h.2.2.2.2.2.2.2.2.1 AIModel.gemini (by decide),
    h.2.2.2.2.2.2.2.2.2.2 ["hi"] rfl⟩

/-- C9: the context window builder returns at most 5 fragments — exactly the
most recent `min 5 len` utterances of the log, in log order (a suffix of the
log) — each prefixed with the producing model's uppercased name, with the
requesting agent's own fragments in the assistant role and all others in the
user role; it is a pure function of the log and the agent. -/
theorem buildContextMessages_spec (messages : List Message) (cur : AIModel) :
    (buildContextMessages messages cur).length ≤ 5 ∧
    ∃ front back, messages = front ++ back ∧
      back.length = min 5 messages.length ∧
      buildContextMessages messages cur = back.map (fun m =>
        { role := if m.model == cur then ContextRole.assistant else ContextRole.user
          content := "[" ++ (modelName m.model).toUpper ++ "]: " ++ m.content }) := by
  constructor
  · unfold buildContextMessages sliceLast
    rw [List.length_map, List.length_drop]
    omega
  · exact ⟨messages.take (messages.length - 5), messages.drop (messages.length - 5),
      (List.take_append_drop _ _).symm, by rw [List.length_drop]; omega, rfl⟩

/-- C10: a streaming turn that completes without error but with no content
fragments still commits an utterance with empty content for the current
(stage, round), sets the agent's status to `complete`, and resets its retry
counter to zero. -/
theorem executeTurn_empty_success (s : ExecState) (model : AIModel) (now : Nat) :
    (executeTurn s model (TurnOutcome.success []) now).store.messages
      = s.store.messages ++
          [mkMessage { model := model, content := ""
                       stage := s.store.stage, round := s.store.round } now] ∧
    ((executeTurn s model (TurnOutcome.success []) now).store.aiStates model).status
      = AIStatus.complete ∧
    (executeTurn s model (TurnOutcome.success []) now).retryCount model = 0 := by
  refine ⟨?_, ?_, ?_⟩ <;>
    simp [executeTurn, addMessage, setAIStatus, updateTokenUsage, String.join]

end AIDebate
